import Mathlib

/-!
Verification of the setuid command-dispatcher wrappers
(cmd-wrapper.c, rsync-wrapper.c, print-cmd-wrapper.c).

Each C main function is shallowly embedded as a pure Lean function from the
invocation context (real uid, real gid, argc, and the optional value of the
SSH_ORIGINAL_COMMAND environment variable) to the trace of observable calls
the process makes (identity changes, printed output, exec attempts) together
with the terminal outcome (exit with a code, successful image replacement,
or a null-pointer dereference, which is undefined behavior in C).

The outcomes of the OS calls the programs do not branch on are passed in as
parameters: whether the image-replace call fails is the function
argument given to the embedding, and the return values of the privilege
calls are an ignored parameter, mirroring the C code, which discards them.
-/

namespace MiscScripts

/-- The UTF-8 bytes of a string, as natural numbers. A C char pointer into
this program addresses these bytes. -/
def strBytes (s : String) : List Nat :=
  (s.data.flatMap String.utf8EncodeChar).map UInt8.toNat

/-- The bytes of a NUL-terminated C string literal. -/
def cstr (s : String) : List Nat := strBytes s ++ [0]

/-- C strncmp on byte lists: compare at most n bytes, stopping at the first
difference or at a NUL terminator; result 0 means the prefixes agree. The
cases for exhausted lists are unreachable on NUL-terminated inputs. -/
def strncmp : List Nat → List Nat → Nat → Int
  | _, _, 0 => 0
  | [], [], _ + 1 => 0
  | [], b :: _, _ + 1 => 0 - (b : Int)
  | a :: _, [], _ + 1 => (a : Int)
  | a :: as, b :: bs, n + 1 =>
    if a ≠ b then (a : Int) - (b : Int)
    else if a = 0 then 0
    else strncmp as bs n

/-- Conversion of an unsigned gid_t value to the C int it is stored in
(the global int gid in both wrapper programs). -/
def toCInt (n : Nat) : Int :=
  if n % 2 ^ 32 < 2 ^ 31 then ((n % 2 ^ 32 : Nat) : Int)
  else ((n % 2 ^ 32 : Nat) : Int) - 2 ^ 32

/-- An observable action of a wrapper process, in program order. -/
inductive Event where
  | setegidCall (g : Nat)
  | seteuidCall (u : Nat)
  | setgidCall (g : Nat)
  | setuidCall (u : Nat)
  | printOut (s : String)
  | perrorCall (s : String)
  | execCall (path : String) (args : List String)
deriving DecidableEq, Repr

/-- How a wrapper run terminates. -/
inductive Outcome where
  | exited (code : Nat)
  | execed (path : String) (args : List String)
  | nullDeref
deriving DecidableEq, Repr

/-- The invocation context of a wrapper process: real uid and gid as read by
getuid/getgid, the argument count argc, and the value of the
SSH_ORIGINAL_COMMAND environment variable (none when the variable is absent,
in which case getenv returns NULL). -/
structure Input where
  ruid : Nat
  rgid : Nat
  argc : Nat
  sshOriginalCommand : Option String
deriving DecidableEq, Repr

/-- The privilege-drop calls both wrappers begin with:
setegid(getgid()); seteuid(getuid()). -/
def dropTrace (inp : Input) : List Event :=
  [Event.setegidCall inp.rgid, Event.seteuidCall inp.ruid]

/-- The privilege re-escalation calls both wrappers make after their checks:
setegid(0); seteuid(0); setgid(0); setuid(0). -/
def escTrace : List Event :=
  [Event.setegidCall 0, Event.seteuidCall 0, Event.setgidCall 0,
   Event.setuidCall 0]

/-- Shallow embedding of main in src/cmd-wrapper.c. Reads
SSH_ORIGINAL_COMMAND, drops effective ids to the real ids, rejects a real
gid stored as int differing from 502, rejects argc differing from 1,
re-escalates all four ids to 0, then prefix-matches the environment command
against "pre" (3 bytes) and then "post" (4 bytes) and execs the matching
rsnapshot script; an unmatched string prints an error and usage and exits 1.
When getenv returned NULL, the pointer goes straight into strncmp: a null
dereference. execFails tells whether the execl call fails (in which case
perror runs and control falls through to the final exit(0)); privRet gives
the return values of the privilege calls, which the C code never examines. -/
def cmdWrapperMain (inp : Input) (execFails : String → Bool)
    (_privRet : Nat → Int) : List Event × Outcome :=
  let origcmd := inp.sshOriginalCommand
  let gid : Int := toCInt inp.rgid
  if gid ≠ 502 then
    (dropTrace inp ++ [Event.printOut "User Not Authorized! Exiting...\n"],
     Outcome.exited 1)
  else if inp.argc ≠ 1 then
    (dropTrace inp ++ [Event.printOut "Usage: cmd-wrapper [pre|post]\n"],
     Outcome.exited 1)
  else
    match origcmd with
    | none => (dropTrace inp ++ escTrace, Outcome.nullDeref)
    | some cmd =>
      if strncmp (cstr cmd) (cstr "pre") 3 = 0 then
        if execFails "/root/bin/rsnapshot-pre.sh" then
          (dropTrace inp ++ escTrace ++
            [Event.execCall "/root/bin/rsnapshot-pre.sh" ["rsnapshot-pre.sh"],
             Event.perrorCall "Execl:"],
           Outcome.exited 0)
        else
          (dropTrace inp ++ escTrace ++
            [Event.execCall "/root/bin/rsnapshot-pre.sh" ["rsnapshot-pre.sh"]],
           Outcome.execed "/root/bin/rsnapshot-pre.sh" ["rsnapshot-pre.sh"])
      else if strncmp (cstr cmd) (cstr "post") 4 = 0 then
        if execFails "/root/bin/rsnapshot-post.sh" then
          (dropTrace inp ++ escTrace ++
            [Event.execCall "/root/bin/rsnapshot-post.sh" ["rsnapshot-post.sh"],
             Event.perrorCall "Execl:"],
           Outcome.exited 0)
        else
          (dropTrace inp ++ escTrace ++
            [Event.execCall "/root/bin/rsnapshot-post.sh" ["rsnapshot-post.sh"]],
           Outcome.execed "/root/bin/rsnapshot-post.sh" ["rsnapshot-post.sh"])
      else
        (dropTrace inp ++ escTrace ++
          [Event.printOut ("ERROR: Invalid command: " ++ cmd ++ "\n"),
           Event.printOut "Usage: COMMAND [pre|post]\n"],
         Outcome.exited 1)

/-- The fixed argument vector of the rsync exec in src/rsync-wrapper.c. -/
def rsyncArgs : List String :=
  ["rsync", "--server", "--sender", "-vlogDtprRe.iLsf", "--numeric-ids",
   ".", "/"]

/-- Shallow embedding of main in src/rsync-wrapper.c. Same drop, gid-502 and
argc-1 checks and re-escalation as cmd-wrapper, then unconditionally execs
/usr/bin/rsync with a fixed argument vector; the environment command string
is never read. On exec failure perror runs and control reaches exit(0). -/
def rsyncWrapperMain (inp : Input) (execFails : String → Bool)
    (_privRet : Nat → Int) : List Event × Outcome :=
  let gid : Int := toCInt inp.rgid
  if gid ≠ 502 then
    (dropTrace inp ++ [Event.printOut "User Not Authorized! Exiting...\n"],
     Outcome.exited 1)
  else if inp.argc ≠ 1 then
    (dropTrace inp ++ [Event.printOut "Usage: rsync-wrapper\n"],
     Outcome.exited 1)
  else
    if execFails "/usr/bin/rsync" then
      (dropTrace inp ++ escTrace ++
        [Event.execCall "/usr/bin/rsync" rsyncArgs,
         Event.perrorCall "Execl:"],
       Outcome.exited 0)
    else
      (dropTrace inp ++ escTrace ++
        [Event.execCall "/usr/bin/rsync" rsyncArgs],
       Outcome.execed "/usr/bin/rsync" rsyncArgs)

/-- What the %s conversion of printf produces for this optional C string:
the string itself, or, for a NULL pointer, the text "(null)" that glibc
prints for a NULL %s argument. -/
def printfStr : Option String → String
  | some s => s
  | none => "(null)"

/-- Shallow embedding of main in src/print-cmd-wrapper.c. Reads
SSH_ORIGINAL_COMMAND, prints it after the text Original Command:, and exits
0; it makes no identity check, no privilege call and no exec. -/
def printCmdWrapperMain (inp : Input) : List Event × Outcome :=
  ([Event.printOut
      ("Original Command:" ++ printfStr inp.sshOriginalCommand ++ "\n")],
   Outcome.exited 0)

/-- The int the wrappers store the real gid in differs from 502 whenever the
gid_t value differs from 502. -/
theorem toCInt_ne_502 (g : Nat) (hlt : g < 2 ^ 32) (hne : g ≠ 502) :
    toCInt g ≠ 502 := by
  unfold toCInt
  rw [Nat.mod_eq_of_lt hlt]
  split <;> omega

/-- C1 counterexample: with real gid 502, argc 1 and command string "bogus"
the run is a ValidationError exit (exit code 1 with the invalid-command
diagnostic), yet all four re-escalation calls appear in the trace before the
diagnostic: the validation failure exit happens after re-escalation, not
before it as the claim states. -/
theorem C1_counterexample :
    cmdWrapperMain ⟨1000, 502, 1, some "bogus"⟩ (fun _ => false)
        (fun _ => 0) =
      ([Event.setegidCall 502, Event.seteuidCall 1000, Event.setegidCall 0,
        Event.seteuidCall 0, Event.setgidCall 0, Event.setuidCall 0,
        Event.printOut "ERROR: Invalid command: bogus\n",
        Event.printOut "Usage: COMMAND [pre|post]\n"],
       Outcome.exited 1) := by
  rfl

/-- C1 amended: a UsageError exit (wrong argc) happens before any
re-escalation call has run, but a ValidationError exit (unrecognized command
string) happens only after all four re-escalation calls have run, so the
validation failure exit is taken while the process holds re-acquired root
identity. -/
theorem C1_amended_usage_before_validation_after_reescalation (inp : Input)
    (ef : String → Bool) (pr : Nat → Int) :
    (toCInt inp.rgid = 502 → inp.argc ≠ 1 →
      cmdWrapperMain inp ef pr =
        ([Event.setegidCall inp.rgid, Event.seteuidCall inp.ruid,
          Event.printOut "Usage: cmd-wrapper [pre|post]\n"],
         Outcome.exited 1)) ∧
    (∀ cmd, toCInt inp.rgid = 502 → inp.argc = 1 →
      inp.sshOriginalCommand = some cmd →
      strncmp (cstr cmd) (cstr "pre") 3 ≠ 0 →
      strncmp (cstr cmd) (cstr "post") 4 ≠ 0 →
      cmdWrapperMain inp ef pr =
        ([Event.setegidCall inp.rgid, Event.seteuidCall inp.ruid,
          Event.setegidCall 0, Event.seteuidCall 0, Event.setgidCall 0,
          Event.setuidCall 0,
          Event.printOut ("ERROR: Invalid command: " ++ cmd ++ "\n"),
          Event.printOut "Usage: COMMAND [pre|post]\n"],
         Outcome.exited 1)) := by
  constructor
  · intro hg ha
    simp [cmdWrapperMain, dropTrace, hg, ha]
  · intro cmd hg ha hc h1 h2
    simp [cmdWrapperMain, dropTrace, escTrace, hg, ha, hc, h1, h2]

/-- C1 amended witness at concrete inputs: argc 2 gives the usage exit with
no re-escalation event; command string "bogus" gives the validation exit
with the four re-escalation calls before the diagnostic. -/
theorem C1_amended_witness :
    cmdWrapperMain ⟨1000, 502, 2, some "pre"⟩ (fun _ => false) (fun _ => 0) =
      ([Event.setegidCall 502, Event.seteuidCall 1000,
        Event.printOut "Usage: cmd-wrapper [pre|post]\n"],
       Outcome.exited 1) ∧
    cmdWrapperMain ⟨1000, 502, 1, some "nope"⟩ (fun _ => false) (fun _ => 0) =
      ([Event.setegidCall 502, Event.seteuidCall 1000, Event.setegidCall 0,
        Event.seteuidCall 0, Event.setgidCall 0, Event.setuidCall 0,
        Event.printOut "ERROR: Invalid command: nope\n",
        Event.printOut "Usage: COMMAND [pre|post]\n"],
       Outcome.exited 1) :=
  ⟨(C1_amended_usage_before_validation_after_reescalation
      ⟨1000, 502, 2, some "pre"⟩ (fun _ => false) (fun _ => 0)).1
      (by decide) (by decide),
   (C1_amended_usage_before_validation_after_reescalation
      ⟨1000, 502, 1, some "nope"⟩ (fun _ => false) (fun _ => 0)).2
      "nope" (by decide) rfl rfl (by decide) (by decide)⟩

/-- C2 counterexample: with real gid 502, argc 1, command "pre" and a
failing image-replace call, the process exits with code 0, not 1 as the
claim states, after the perror report of the OS error. -/
theorem C2_counterexample :
    (cmdWrapperMain ⟨1000, 502, 1, some "pre"⟩ (fun _ => true)
        (fun _ => 0)).2 = Outcome.exited 0 ∧
    (cmdWrapperMain ⟨1000, 502, 1, some "pre"⟩ (fun _ => true)
        (fun _ => 0)).2 ≠ Outcome.exited 1 := by
  exact ⟨rfl, by decide⟩

/-- C2 amended: in every run of either wrapper that reaches the exec phase
with a failing image-replace call, the process prints the OS-reported error
(perror with tag Execl:) and then terminates with exit code 0, attempting no
other action: the perror report is the final event and only one exec was
attempted. -/
theorem C2_amended_exec_failure_exits_zero (inp : Input) (pr : Nat → Int) :
    (∀ cmd, toCInt inp.rgid = 502 → inp.argc = 1 →
      inp.sshOriginalCommand = some cmd →
      strncmp (cstr cmd) (cstr "pre") 3 = 0 →
      cmdWrapperMain inp (fun _ => true) pr =
        ([Event.setegidCall inp.rgid, Event.seteuidCall inp.ruid,
          Event.setegidCall 0, Event.seteuidCall 0, Event.setgidCall 0,
          Event.setuidCall 0,
          Event.execCall "/root/bin/rsnapshot-pre.sh" ["rsnapshot-pre.sh"],
          Event.perrorCall "Execl:"],
         Outcome.exited 0)) ∧
    (∀ cmd, toCInt inp.rgid = 502 → inp.argc = 1 →
      inp.sshOriginalCommand = some cmd →
      strncmp (cstr cmd) (cstr "pre") 3 ≠ 0 →
      strncmp (cstr cmd) (cstr "post") 4 = 0 →
      cmdWrapperMain inp (fun _ => true) pr =
        ([Event.setegidCall inp.rgid, Event.seteuidCall inp.ruid,
          Event.setegidCall 0, Event.seteuidCall 0, Event.setgidCall 0,
          Event.setuidCall 0,
          Event.execCall "/root/bin/rsnapshot-post.sh" ["rsnapshot-post.sh"],
          Event.perrorCall "Execl:"],
         Outcome.exited 0)) ∧
    (toCInt inp.rgid = 502 → inp.argc = 1 →
      rsyncWrapperMain inp (fun _ => true) pr =
        ([Event.setegidCall inp.rgid, Event.seteuidCall inp.ruid,
          Event.setegidCall 0, Event.seteuidCall 0, Event.setgidCall 0,
          Event.setuidCall 0,
          Event.execCall "/usr/bin/rsync" rsyncArgs,
          Event.perrorCall "Execl:"],
         Outcome.exited 0)) := by
  refine ⟨?_, ?_, ?_⟩
  · intro cmd hg ha hc h1
    simp [cmdWrapperMain, dropTrace, escTrace, hg, ha, hc, h1]
  · intro cmd hg ha hc h1 h2
    simp [cmdWrapperMain, dropTrace, escTrace, hg, ha, hc, h1, h2]
  · intro hg ha
    simp [rsyncWrapperMain, dropTrace, escTrace, hg, ha]

/-- C2 amended witness: concrete failing-exec runs of both wrappers, on the
pre path, the post path, and the rsync path. -/
theorem C2_amended_witness :
    cmdWrapperMain ⟨1000, 502, 1, some "pre"⟩ (fun _ => true) (fun _ => 0) =
      ([Event.setegidCall 502, Event.seteuidCall 1000, Event.setegidCall 0,
        Event.seteuidCall 0, Event.setgidCall 0, Event.setuidCall 0,
        Event.execCall "/root/bin/rsnapshot-pre.sh" ["rsnapshot-pre.sh"],
        Event.perrorCall "Execl:"],
       Outcome.exited 0) ∧
    cmdWrapperMain ⟨1000, 502, 1, some "post"⟩ (fun _ => true) (fun _ => 0) =
      ([Event.setegidCall 502, Event.seteuidCall 1000, Event.setegidCall 0,
        Event.seteuidCall 0, Event.setgidCall 0, Event.setuidCall 0,
        Event.execCall "/root/bin/rsnapshot-post.sh" ["rsnapshot-post.sh"],
        Event.perrorCall "Execl:"],
       Outcome.exited 0) ∧
    rsyncWrapperMain ⟨1000, 502, 1, none⟩ (fun _ => true) (fun _ => 0) =
      ([Event.setegidCall 502, Event.seteuidCall 1000, Event.setegidCall 0,
        Event.seteuidCall 0, Event.setgidCall 0, Event.setuidCall 0,
        Event.execCall "/usr/bin/rsync" rsyncArgs,
        Event.perrorCall "Execl:"],
       Outcome.exited 0) :=
  ⟨(C2_amended_exec_failure_exits_zero ⟨1000, 502, 1, some "pre"⟩
      (fun _ => 0)).1 "pre" (by decide) rfl rfl (by decide),
   (C2_amended_exec_failure_exits_zero ⟨1000, 502, 1, some "post"⟩
      (fun _ => 0)).2.1 "post" (by decide) rfl rfl (by decide) (by decide),
   (C2_amended_exec_failure_exits_zero ⟨1000, 502, 1, none⟩
      (fun _ => 0)).2.2 (by decide) rfl⟩

/-- C3: when SSH_ORIGINAL_COMMAND is absent (getenv returns NULL) and the
gid and argc checks pass, the run does not exit with code 1: after the four
re-escalation calls the NULL pointer is passed to strncmp, a null-pointer
dereference, contradicting the spec, which requires a clean validation
failure with no dereference of the null value. -/
theorem C3_null_command_is_dereferenced :
    cmdWrapperMain ⟨1000, 502, 1, none⟩ (fun _ => false) (fun _ => 0) =
      ([Event.setegidCall 502, Event.seteuidCall 1000, Event.setegidCall 0,
        Event.seteuidCall 0, Event.setgidCall 0, Event.setuidCall 0],
       Outcome.nullDeref) ∧
    Outcome.nullDeref ≠ Outcome.exited 1 := by
  exact ⟨rfl, by decide⟩

/-- C4: for every real gid other than 502 (within the 32-bit range of
gid_t), both wrappers print the authorization diagnostic and exit with code
1 immediately after the privilege drop: the trace shows no re-escalation
call, no exec attempt, and no inspection of the command string. -/
theorem C4_unauthorized_gid_rejected (inp : Input) (ef : String → Bool)
    (pr : Nat → Int) (hlt : inp.rgid < 2 ^ 32) (hne : inp.rgid ≠ 502) :
    cmdWrapperMain inp ef pr =
      ([Event.setegidCall inp.rgid, Event.seteuidCall inp.ruid,
        Event.printOut "User Not Authorized! Exiting...\n"],
       Outcome.exited 1) ∧
    rsyncWrapperMain inp ef pr =
      ([Event.setegidCall inp.rgid, Event.seteuidCall inp.ruid,
        Event.printOut "User Not Authorized! Exiting...\n"],
       Outcome.exited 1) := by
  have h := toCInt_ne_502 inp.rgid hlt hne
  exact ⟨by simp [cmdWrapperMain, dropTrace, h],
         by simp [rsyncWrapperMain, dropTrace, h]⟩

/-- C4 witness: real gid 999 is rejected by both wrappers. -/
theorem C4_unauthorized_gid_rejected_witness :
    cmdWrapperMain ⟨1000, 999, 1, some "pre"⟩ (fun _ => false) (fun _ => 0) =
      ([Event.setegidCall 999, Event.seteuidCall 1000,
        Event.printOut "User Not Authorized! Exiting...\n"],
       Outcome.exited 1) ∧
    rsyncWrapperMain ⟨1000, 999, 1, some "pre"⟩ (fun _ => false)
        (fun _ => 0) =
      ([Event.setegidCall 999, Event.seteuidCall 1000,
        Event.printOut "User Not Authorized! Exiting...\n"],
       Outcome.exited 1) :=
  C4_unauthorized_gid_rejected ⟨1000, 999, 1, some "pre"⟩ (fun _ => false)
    (fun _ => 0) (by decide) (by decide)

/-- C5 counterexample: with real gid 502, argc 1 and command "posterior",
the process does not exit with code 1: "posterior" prefix-matches "post"
under the 4-byte strncmp, so the run replaces the image with the post
script. -/
theorem C5_counterexample :
    (cmdWrapperMain ⟨1000, 502, 1, some "posterior"⟩ (fun _ => false)
        (fun _ => 0)).2 =
      Outcome.execed "/root/bin/rsnapshot-post.sh" ["rsnapshot-post.sh"] ∧
    (cmdWrapperMain ⟨1000, 502, 1, some "posterior"⟩ (fun _ => false)
        (fun _ => 0)).2 ≠ Outcome.exited 1 := by
  exact ⟨rfl, by decide⟩

/-- C5 amended: with real gid 502, argc 1 and command "posterior", the
string is accepted as a selector for the post action (it matches the 4-byte
"post" prefix comparison), and when the exec succeeds the process image is
replaced by /root/bin/rsnapshot-post.sh with argument vector
rsnapshot-post.sh only. -/
theorem C5_amended_posterior_selects_post (u : Nat) (pr : Nat → Int) :
    cmdWrapperMain ⟨u, 502, 1, some "posterior"⟩ (fun _ => false) pr =
      ([Event.setegidCall 502, Event.seteuidCall u, Event.setegidCall 0,
        Event.seteuidCall 0, Event.setgidCall 0, Event.setuidCall 0,
        Event.execCall "/root/bin/rsnapshot-post.sh" ["rsnapshot-post.sh"]],
       Outcome.execed "/root/bin/rsnapshot-post.sh" ["rsnapshot-post.sh"]) := by
  rfl

/-- C6: with real gid 502 and argc 1, every command string whose bytes begin
with the bytes of "pre" selects exclusively the pre action: the image is
replaced by /root/bin/rsnapshot-pre.sh with argument vector consisting only
of rsnapshot-pre.sh. The hypothesis constrains only the "pre" prefix, so the
pre action is selected no matter how the rest of the string compares with
"post": the "pre" comparison takes precedence. -/
theorem C6_pre_selects_pre_action (u : Nat) (pr : Nat → Int) (cmd : String)
    (rest : List Nat) (h : strBytes cmd = strBytes "pre" ++ rest) :
    cmdWrapperMain ⟨u, 502, 1, some cmd⟩ (fun _ => false) pr =
      ([Event.setegidCall 502, Event.seteuidCall u, Event.setegidCall 0,
        Event.seteuidCall 0, Event.setgidCall 0, Event.setuidCall 0,
        Event.execCall "/root/bin/rsnapshot-pre.sh" ["rsnapshot-pre.sh"]],
       Outcome.execed "/root/bin/rsnapshot-pre.sh" ["rsnapshot-pre.sh"]) := by
  have hb : strBytes "pre" = [112, 114, 101] := by rfl
  have hcs : cstr cmd = 112 :: 114 :: 101 :: (rest ++ [0]) := by
    simp [cstr, h, hb]
  have hbs : cstr "pre" = [112, 114, 101, 0] := by rfl
  have hpre : strncmp (cstr cmd) (cstr "pre") 3 = 0 := by
    rw [hcs, hbs]
    simp [strncmp]
  have hg : toCInt 502 = 502 := by decide
  simp [cmdWrapperMain, dropTrace, escTrace, hpre, hg]

/-- C6 witness: the exact command string "pre" execs the pre script. -/
theorem C6_pre_selects_pre_action_witness :
    cmdWrapperMain ⟨7, 502, 1, some "pre"⟩ (fun _ => false) (fun _ => 0) =
      ([Event.setegidCall 502, Event.seteuidCall 7, Event.setegidCall 0,
        Event.seteuidCall 0, Event.setgidCall 0, Event.setuidCall 0,
        Event.execCall "/root/bin/rsnapshot-pre.sh" ["rsnapshot-pre.sh"]],
       Outcome.execed "/root/bin/rsnapshot-pre.sh" ["rsnapshot-pre.sh"]) :=
  C6_pre_selects_pre_action 7 (fun _ => 0) "pre" [] (by simp)

/-- C7: every invocation of the single-action dispatcher that passes the
gid-502 and argc-1 checks leads to the one fixed exec, /usr/bin/rsync with
the hardcoded argument vector, and any two such invocations (differing in
uid, command string, or privilege-call returns) produce identical exec
targets and argument vectors: the untrusted string has no influence. -/
theorem C7_rsync_fixed_invocation (inp inp2 : Input) (pr pr2 : Nat → Int)
    (hg : toCInt inp.rgid = 502) (ha : inp.argc = 1)
    (hg2 : toCInt inp2.rgid = 502) (ha2 : inp2.argc = 1) :
    (rsyncWrapperMain inp (fun _ => false) pr).2 =
      Outcome.execed "/usr/bin/rsync" rsyncArgs ∧
    (rsyncWrapperMain inp2 (fun _ => false) pr2).2 =
      (rsyncWrapperMain inp (fun _ => false) pr).2 := by
  have h1 : (rsyncWrapperMain inp (fun _ => false) pr).2 =
      Outcome.execed "/usr/bin/rsync" rsyncArgs := by
    simp [rsyncWrapperMain, hg, ha]
  have h2 : (rsyncWrapperMain inp2 (fun _ => false) pr2).2 =
      Outcome.execed "/usr/bin/rsync" rsyncArgs := by
    simp [rsyncWrapperMain, hg2, ha2]
  exact ⟨h1, h2.trans h1.symm⟩

/-- C7 witness: a hostile command string and an absent one give the same
fixed rsync invocation. -/
theorem C7_rsync_fixed_invocation_witness :
    (rsyncWrapperMain ⟨1, 502, 1, some "rm -rf /"⟩ (fun _ => false)
        (fun _ => 0)).2 = Outcome.execed "/usr/bin/rsync" rsyncArgs ∧
    (rsyncWrapperMain ⟨2, 502, 1, none⟩ (fun _ => false) (fun _ => 7)).2 =
      (rsyncWrapperMain ⟨1, 502, 1, some "rm -rf /"⟩ (fun _ => false)
        (fun _ => 0)).2 :=
  C7_rsync_fixed_invocation ⟨1, 502, 1, some "rm -rf /"⟩ ⟨2, 502, 1, none⟩
    (fun _ => 0) (fun _ => 7) (by decide) rfl (by decide) rfl

/-- C8: in every run of either wrapper that reaches the re-escalation phase
(gid check and argc check both passed), the trace begins with the privilege
drop followed immediately by the four re-escalation calls in exactly the
order setegid 0, seteuid 0, setgid 0, setuid 0. -/
theorem C8_reescalation_order (inp : Input) (ef : String → Bool)
    (pr : Nat → Int) (hg : toCInt inp.rgid = 502) (ha : inp.argc = 1) :
    (∃ tail, (cmdWrapperMain inp ef pr).1 =
      [Event.setegidCall inp.rgid, Event.seteuidCall inp.ruid,
       Event.setegidCall 0, Event.seteuidCall 0, Event.setgidCall 0,
       Event.setuidCall 0] ++ tail) ∧
    (∃ tail, (rsyncWrapperMain inp ef pr).1 =
      [Event.setegidCall inp.rgid, Event.seteuidCall inp.ruid,
       Event.setegidCall 0, Event.seteuidCall 0, Event.setgidCall 0,
       Event.setuidCall 0] ++ tail) := by
  constructor
  · rcases hcmd : inp.sshOriginalCommand with _ | cmd
    · exact ⟨[], by simp [cmdWrapperMain, dropTrace, escTrace, hg, ha, hcmd]⟩
    · by_cases h1 : strncmp (cstr cmd) (cstr "pre") 3 = 0
      · cases hef : ef "/root/bin/rsnapshot-pre.sh"
        · exact ⟨[Event.execCall "/root/bin/rsnapshot-pre.sh"
              ["rsnapshot-pre.sh"]],
            by simp [cmdWrapperMain, dropTrace, escTrace, hg, ha, hcmd, h1,
              hef]⟩
        · exact ⟨[Event.execCall "/root/bin/rsnapshot-pre.sh"
              ["rsnapshot-pre.sh"], Event.perrorCall "Execl:"],
            by simp [cmdWrapperMain, dropTrace, escTrace, hg, ha, hcmd, h1,
              hef]⟩
      · by_cases h2 : strncmp (cstr cmd) (cstr "post") 4 = 0
        · cases hef : ef "/root/bin/rsnapshot-post.sh"
          · exact ⟨[Event.execCall "/root/bin/rsnapshot-post.sh"
                ["rsnapshot-post.sh"]],
              by simp [cmdWrapperMain, dropTrace, escTrace, hg, ha, hcmd, h1,
                h2, hef]⟩
          · exact ⟨[Event.execCall "/root/bin/rsnapshot-post.sh"
                ["rsnapshot-post.sh"], Event.perrorCall "Execl:"],
              by simp [cmdWrapperMain, dropTrace, escTrace, hg, ha, hcmd, h1,
                h2, hef]⟩
        · exact ⟨[Event.printOut ("ERROR: Invalid command: " ++ cmd ++ "\n"),
              Event.printOut "Usage: COMMAND [pre|post]\n"],
            by simp [cmdWrapperMain, dropTrace, escTrace, hg, ha, hcmd, h1,
              h2]⟩
  · cases hef : ef "/usr/bin/rsync"
    · exact ⟨[Event.execCall "/usr/bin/rsync" rsyncArgs],
        by simp [rsyncWrapperMain, dropTrace, escTrace, hg, ha, hef]⟩
    · exact ⟨[Event.execCall "/usr/bin/rsync" rsyncArgs,
          Event.perrorCall "Execl:"],
        by simp [rsyncWrapperMain, dropTrace, escTrace, hg, ha, hef]⟩

/-- C8 witness: a concrete authorized run of each wrapper starts with the
drop and then the four re-escalation calls in order. -/
theorem C8_reescalation_order_witness :
    (∃ tail, (cmdWrapperMain ⟨3, 502, 1, some "post"⟩ (fun _ => false)
        (fun _ => 0)).1 =
      [Event.setegidCall 502, Event.seteuidCall 3, Event.setegidCall 0,
       Event.seteuidCall 0, Event.setgidCall 0, Event.setuidCall 0] ++
        tail) ∧
    (∃ tail, (rsyncWrapperMain ⟨3, 502, 1, some "post"⟩ (fun _ => false)
        (fun _ => 0)).1 =
      [Event.setegidCall 502, Event.seteuidCall 3, Event.setegidCall 0,
       Event.seteuidCall 0, Event.setgidCall 0, Event.setuidCall 0] ++
        tail) :=
  C8_reescalation_order ⟨3, 502, 1, some "post"⟩ (fun _ => false)
    (fun _ => 0) (by decide) rfl

/-- C9: neither wrapper inspects the return values of the privilege calls.
The embeddings take those return values as a parameter that the translated
code never reads, so the whole run (trace and outcome) is identical for any
two assignments of return values, and an authorized run still proceeds to
attempt the exec: the rsync exec call is in the trace whenever the checks
pass, and the pre exec call is in the trace whenever the checks pass and the
command matches "pre". -/
theorem C9_privilege_call_returns_ignored (inp : Input) (ef : String → Bool)
    (pr pr2 : Nat → Int) :
    cmdWrapperMain inp ef pr = cmdWrapperMain inp ef pr2 ∧
    rsyncWrapperMain inp ef pr = rsyncWrapperMain inp ef pr2 ∧
    (toCInt inp.rgid = 502 → inp.argc = 1 →
      Event.execCall "/usr/bin/rsync" rsyncArgs ∈
        (rsyncWrapperMain inp ef pr).1) ∧
    (∀ cmd, toCInt inp.rgid = 502 → inp.argc = 1 →
      inp.sshOriginalCommand = some cmd →
      strncmp (cstr cmd) (cstr "pre") 3 = 0 →
      Event.execCall "/root/bin/rsnapshot-pre.sh" ["rsnapshot-pre.sh"] ∈
        (cmdWrapperMain inp ef pr).1) := by
  refine ⟨rfl, rfl, ?_, ?_⟩
  · intro hg ha
    cases hef : ef "/usr/bin/rsync" <;>
      simp [rsyncWrapperMain, dropTrace, escTrace, hg, ha, hef]
  · intro cmd hg ha hc h1
    cases hef : ef "/root/bin/rsnapshot-pre.sh" <;>
      simp [cmdWrapperMain, dropTrace, escTrace, hg, ha, hc, h1, hef]

/-- C9 witness: two different assignments of privilege-call return values
give the same run, and the authorized concrete run attempts the exec. -/
theorem C9_privilege_call_returns_ignored_witness :
    cmdWrapperMain ⟨0, 502, 1, some "pre"⟩ (fun _ => false) (fun _ => 5) =
      cmdWrapperMain ⟨0, 502, 1, some "pre"⟩ (fun _ => false)
        (fun _ => -1) ∧
    Event.execCall "/root/bin/rsnapshot-pre.sh" ["rsnapshot-pre.sh"] ∈
      (cmdWrapperMain ⟨0, 502, 1, some "pre"⟩ (fun _ => false)
        (fun _ => 5)).1 :=
  ⟨(C9_privilege_call_returns_ignored ⟨0, 502, 1, some "pre"⟩
      (fun _ => false) (fun _ => 5) (fun _ => -1)).1,
   (C9_privilege_call_returns_ignored ⟨0, 502, 1, some "pre"⟩
      (fun _ => false) (fun _ => 5) (fun _ => -1)).2.2.2 "pre" (by decide)
      rfl rfl (by decide)⟩

/-- C10: the print variant performs no authorization check and no privilege
transition: for every invocation it prints the SSH_ORIGINAL_COMMAND value
(glibc renders a NULL %s argument as the text (null)) and exits 0; its trace
holds no exec call and no identity-changing call, and the run depends only
on the environment command string, not on the gid or argv. -/
theorem C10_print_wrapper_only_prints (inp inp2 : Input)
    (henv : inp.sshOriginalCommand = inp2.sshOriginalCommand) :
    printCmdWrapperMain inp =
      ([Event.printOut ("Original Command:" ++
          printfStr inp.sshOriginalCommand ++ "\n")], Outcome.exited 0) ∧
    (∀ p a, Event.execCall p a ∉ (printCmdWrapperMain inp).1) ∧
    (∀ g, Event.setegidCall g ∉ (printCmdWrapperMain inp).1) ∧
    (∀ u, Event.seteuidCall u ∉ (printCmdWrapperMain inp).1) ∧
    (∀ g, Event.setgidCall g ∉ (printCmdWrapperMain inp).1) ∧
    (∀ u, Event.setuidCall u ∉ (printCmdWrapperMain inp).1) ∧
    printCmdWrapperMain inp = printCmdWrapperMain inp2 := by
  refine ⟨rfl, ?_, ?_, ?_, ?_, ?_, ?_⟩ <;>
    simp [printCmdWrapperMain, henv]

/-- C10 witness: an unauthorized gid, extra argv entries and an absent
environment variable still give only the print and exit 0, and the run
equals one with a different gid and argv but the same absent variable. -/
theorem C10_print_wrapper_only_prints_witness :
    printCmdWrapperMain ⟨55, 999, 4, none⟩ =
      ([Event.printOut ("Original Command:" ++ printfStr none ++ "\n")],
       Outcome.exited 0) ∧
    printCmdWrapperMain ⟨55, 999, 4, none⟩ =
      printCmdWrapperMain ⟨1, 502, 1, none⟩ :=
  ⟨(C10_print_wrapper_only_prints ⟨55, 999, 4, none⟩ ⟨1, 502, 1, none⟩
      rfl).1,
   (C10_print_wrapper_only_prints ⟨55, 999, 4, none⟩ ⟨1, 502, 1, none⟩
      rfl).2.2.2.2.2.2⟩

end MiscScripts
